import Mathlib

/-!
Shallow embedding of the prefabricated-house cost estimator of `app.py`
(classes `VeritabaniYoneticisi.malzeme_bilgisi_getir`, `EvHesaplayici._alan_hesapla`
and `EvHesaplayici.malzeme_ihtiyacini_hesapla`), together with theorems settling
the frozen claims about it.

Modelling conventions:
* Python floats are modelled as exact rationals `ℚ`; `math.cos (math.radians x)`
  is an uninterpreted parameter `cosDeg : ℚ → ℚ` threaded through the geometry.
* The catalog (`malzeme_bilgisi_getir` plus the `UygulamaDetaylari` query) is a
  pure lookup structure, since one estimation run only reads it.
* The JSON property bag (`ek_ozellikler`) is modelled as an association list of
  string keys to numbers; a row whose bag is SQL NULL / empty is `bosluk`, a row
  whose bag fails `json.loads` is `bozuk` (the code treats both as `{}`).
* The insertion-ordered Python dict `malzeme_ihtiyaclari` is an association
  list with dict-assignment semantics (`dictInsert`).
* The method-local variable `maliyet` is threaded as `Durum.sonMaliyet : Option ℚ`;
  reading it while unbound (Python `UnboundLocalError`, reachable at line 349 of
  the source) makes the whole run return `none`.
-/

namespace Prefabric

/-- A room entry of `ev_bilgileri["oda_listesi"]`. -/
structure Oda where
  oda_adi : String
  uzunluk : ℚ
  genislik : ℚ
  yukseklik : ℚ
  zemin_kaplama_tipi : String
  duvar_kaplama_tipi : String
deriving DecidableEq

/-- A window entry of `ev_bilgileri["pencere_listesi"]`. -/
structure Pencere where
  genislik : ℚ
  yukseklik : ℚ
  adet : ℤ
deriving DecidableEq

/-- A door entry of `ev_bilgileri["kapi_listesi"]`. -/
structure Kapi where
  kapi_adi : String
  genislik : ℚ
  yukseklik : ℚ
  adet : ℤ
deriving DecidableEq

/-- The house description `ev_data` handed to `EvHesaplayici`. -/
structure EvBilgileri where
  kat_sayisi : ℤ
  cati_tipi : String
  cati_egim_acisi : ℚ
  oda_listesi : List Oda
  pencere_listesi : List Pencere
  kapi_listesi : List Kapi
deriving DecidableEq

/-- A `Malzemeler` row (the fields the estimator reads). -/
structure Malzeme where
  malzeme_adi : String
  birim_olcu_tipi : String
  varsayilan_fire_orani : ℚ
deriving DecidableEq

/-- The current `Fiyatlar` row returned by `malzeme_bilgisi_getir`. -/
structure Fiyat where
  birim_fiyat : ℚ
deriving DecidableEq

/-- A `Sarfiyatlar` row. -/
structure Sarfiyat where
  uygulama_turu : String
  sarfiyat_degeri : ℚ
  sarfiyat_birimi : String
deriving DecidableEq

/-- The dictionary returned by `malzeme_bilgisi_getir`: material row, the
latest price (or `none`) and the consumption-rate rows. -/
structure MalzemeInfo where
  malzeme : Malzeme
  fiyat : Option Fiyat
  sarfiyat : List Sarfiyat
deriving DecidableEq

/-- The `ek_ozellikler` column of one `UygulamaDetaylari` row: SQL NULL or an
empty string (`bosluk`), an unparsable JSON text (`bozuk`), or a parsed JSON
object with numeric values (`veri`). -/
inductive EkOzellik where
  | bosluk
  | bozuk
  | veri (bag : List (String × ℚ))
deriving DecidableEq

/-- The catalog collaborator: `malzemeBilgisi` models
`VeritabaniYoneticisi.malzeme_bilgisi_getir` (name-then-category lookup plus
latest price and rates), `uygulamaDetaylari` models the
`veri_sorgula("UygulamaDetaylari", {oda_tipi, uygulama_alani})` row list. -/
structure Katalog where
  malzemeBilgisi : String → Option MalzemeInfo
  uygulamaDetaylari : String → String → List EkOzellik

/-- The effective property bag: `{}` unless the first row exists, its
`ek_ozellikler` is truthy and parses (source lines 273–278 and 318–323). -/
def etkinBag (rows : List EkOzellik) : List (String × ℚ) :=
  match rows.head? with
  | some (EkOzellik.veri bag) => bag
  | _ => []

/-- Python `bag[k]` / `bag.get(k)` on the parsed property bag. -/
def bagGet (bag : List (String × ℚ)) (k : String) : Option ℚ :=
  (bag.find? (fun p => p.1 == k)).map (fun p => p.2)

/-- A quantity slot of a need line: a number, or the `"N/A"` marker used by the
overhead line. -/
inductive Miktar where
  | deger (q : ℚ)
  | na
deriving DecidableEq

/-- One value of the `malzeme_ihtiyaclari` dict (a MaterialNeedLine). -/
structure Ihtiyac where
  net_miktar : Miktar
  gerekli_miktar : Miktar
  birim_olcu : String
  birim_fiyat : ℚ
  maliyet : ℚ
deriving DecidableEq

/-- Python dict assignment `d[k] = v` on an insertion-ordered dict: update in
place if the key exists, else append. -/
def dictInsert (m : List (String × Ihtiyac)) (k : String) (v : Ihtiyac) :
    List (String × Ihtiyac) :=
  if m.any (fun p => p.1 == k) then
    m.map (fun p => if p.1 == k then (k, v) else p)
  else
    m ++ [(k, v)]

/-- The mutable computation state of `malzeme_ihtiyacini_hesapla`: the need
dict, the running total `toplam_maliyet_temp`, and the method-local variable
`maliyet` (`none` = not yet assigned in this call). -/
structure Durum where
  ihtiyaclar : List (String × Ihtiyac)
  toplam : ℚ
  sonMaliyet : Option ℚ
deriving DecidableEq

/-- The geometry quantities computed by `_alan_hesapla` (besides the per-room
dict, which is `odaAlanlari` below). -/
structure Alanlar where
  toplam_pencere_alani : ℚ
  toplam_kapi_alani : ℚ
  toplam_taban_alani : ℚ
  toplam_duvar_alani_brut : ℚ
  cati_alani : ℚ
deriving DecidableEq

/-- The `self.oda_alanlari` dict: room name ↦ (floor area, gross wall area),
written in input order, so a later room with the same name overwrites an
earlier one (source lines 183–188). -/
def odaAlanlari (odalar : List Oda) (ad : String) : Option (ℚ × ℚ) :=
  odalar.foldl
    (fun acc o =>
      if o.oda_adi = ad then
        some (o.uzunluk * o.genislik, 2 * (o.uzunluk + o.genislik) * o.yukseklik)
      else acc)
    none

/-- `EvHesaplayici._alan_hesapla` (source lines 175–204), with `cosDeg`
standing for `math.cos ∘ math.radians`. -/
def alan_hesapla (cosDeg : ℚ → ℚ) (ev : EvBilgileri) : Alanlar :=
  let pencere := (ev.pencere_listesi.map
    (fun p => p.genislik * p.yukseklik * (p.adet : ℚ))).sum
  let kapi := (ev.kapi_listesi.map
    (fun k => k.genislik * k.yukseklik * (k.adet : ℚ))).sum
  let taban := ev.oda_listesi.foldl
    (fun acc o => acc + o.uzunluk * o.genislik) 0
  let duvar := ev.oda_listesi.foldl
    (fun acc o => acc + 2 * (o.uzunluk + o.genislik) * o.yukseklik) 0
  let tabanHerKat := if 0 < ev.kat_sayisi then taban / (ev.kat_sayisi : ℚ) else taban
  let cati :=
    if ev.cati_tipi ≠ "Düz" ∧ 0 < ev.cati_egim_acisi then
      (if |cosDeg ev.cati_egim_acisi| < 0.001 then tabanHerKat * 2
       else tabanHerKat / cosDeg ev.cati_egim_acisi)
    else tabanHerKat
  ⟨pencere, kapi, taban, duvar, cati⟩

/-- Net wall area used for the wall panels (source lines 212–213). -/
def net_duvar_alani_paneller_icin (a : Alanlar) : ℚ :=
  let d := a.toplam_duvar_alani_brut - a.toplam_pencere_alani - a.toplam_kapi_alani
  if d < 0 then 0 else d

/-- This room's net wall area after the proportional window/door deduction
(source lines 256–262); `alan` is the `oda_alanlari` dict. -/
def duvarAlaniNet (a : Alanlar) (alan : String → Option (ℚ × ℚ)) (ad : String) : ℚ :=
  let odaBrut := ((alan ad).getD (0, 0)).2
  let bosluk :=
    if 0 < a.toplam_duvar_alani_brut then
      (odaBrut / a.toplam_duvar_alani_brut) *
        (a.toplam_pencere_alani + a.toplam_kapi_alani)
    else 0
  let net := odaBrut - bosluk
  if net < 0 then 0 else net

/-- Shared shape of every line insertion whose `maliyet` is
`gerekli_miktar * birim_fiyat`: write the line into the dict, add its cost to
the running total, and (re)assign the local variable `maliyet`. -/
def satirEkle (st : Durum) (key : String) (net gerekli : ℚ)
    (birim : String) (fiyat : ℚ) : Durum :=
  { ihtiyaclar := dictInsert st.ihtiyaclar key
      ⟨Miktar.deger net, Miktar.deger gerekli, birim, fiyat, gerekli * fiyat⟩,
    toplam := st.toplam + gerekli * fiyat,
    sonMaliyet := some (gerekli * fiyat) }

/-- Wall-panel step (source lines 211–228): skipped when the material or its
current price is absent. -/
def duvarPaneliAdim (kat : Katalog) (a : Alanlar) (st : Durum) : Durum :=
  match kat.malzemeBilgisi "Duvar Paneli" with
  | none => st
  | some info =>
    match info.fiyat with
    | none => st
    | some f =>
      satirEkle st "Duvar Paneli (Toplam)" (net_duvar_alani_paneller_icin a)
        (net_duvar_alani_paneller_icin a * (1 + info.malzeme.varsayilan_fire_orani))
        info.malzeme.birim_olcu_tipi f.birim_fiyat

/-- Roof-panel step (source lines 232–246). -/
def catiAdim (kat : Katalog) (a : Alanlar) (st : Durum) : Durum :=
  match kat.malzemeBilgisi "Çatı Paneli" with
  | none => st
  | some info =>
    match info.fiyat with
    | none => st
    | some f =>
      satirEkle st "Çatı Kaplama (Toplam)" a.cati_alani
        (a.cati_alani * (1 + info.malzeme.varsayilan_fire_orani))
        info.malzeme.birim_olcu_tipi f.birim_fiyat

/-- Per-room floor-covering step (source lines 264–301). -/
def zeminAdim (kat : Katalog) (alan : String → Option (ℚ × ℚ)) (oda : Oda)
    (st : Durum) : Durum :=
  let net := ((alan oda.oda_adi).getD (0, 0)).1
  match kat.malzemeBilgisi oda.zemin_kaplama_tipi with
  | none => st
  | some info =>
    match info.fiyat with
    | none => st
    | some f =>
      let bag := etkinBag (kat.uygulamaDetaylari oda.oda_adi "Zemin")
      let key := oda.oda_adi ++ " Zemin (" ++ info.malzeme.malzeme_adi ++ ")"
      match bagGet bag "fayans_boyut_m2" with
      | some v =>
        if info.malzeme.malzeme_adi = "Fayans" ∧ 0 < v then
          satirEkle st key net
            ((net / v) * (1 + info.malzeme.varsayilan_fire_orani)) "adet"
            f.birim_fiyat
        else
          satirEkle st key net (net * (1 + info.malzeme.varsayilan_fire_orani))
            info.malzeme.birim_olcu_tipi f.birim_fiyat
      | none =>
        satirEkle st key net (net * (1 + info.malzeme.varsayilan_fire_orani))
          info.malzeme.birim_olcu_tipi f.birim_fiyat

/-- Per-room wall-covering step (source lines 305–351).  The final
`toplam_maliyet_temp += maliyet` of line 349 runs in every branch below the
price check: it re-adds the freshly computed cost in the paint-with-rate and
non-paint branches, and in the paint-without-rate branch it reads the stale
local `maliyet` — `none` there is Python's `UnboundLocalError`. -/
def duvarAdim (kat : Katalog) (a : Alanlar) (alan : String → Option (ℚ × ℚ))
    (oda : Oda) (st : Durum) : Option Durum :=
  let net := duvarAlaniNet a alan oda.oda_adi
  match kat.malzemeBilgisi oda.duvar_kaplama_tipi with
  | none => some st
  | some info =>
    match info.fiyat with
    | none => some st
    | some f =>
      if info.malzeme.malzeme_adi = "Boya" then
        match (info.sarfiyat.filter (fun s => s.uygulama_turu == "Duvar")).head? with
        | some s0 =>
          let bag := etkinBag (kat.uygulamaDetaylari oda.oda_adi "Duvar")
          let katlar := (bagGet bag "kat_sayisi").getD 1
          let gerekli := net * s0.sarfiyat_degeri * katlar *
            (1 + info.malzeme.varsayilan_fire_orani)
          let st' := satirEkle st
            (oda.oda_adi ++ " Duvar (" ++ info.malzeme.malzeme_adi ++ ")")
            net gerekli "litre" f.birim_fiyat
          some { st' with toplam := st'.toplam + gerekli * f.birim_fiyat }
        | none =>
          match st.sonMaliyet with
          | none => none
          | some mv => some { st with toplam := st.toplam + mv }
      else
        some (satirEkle st
          (oda.oda_adi ++ " Duvar (" ++ info.malzeme.malzeme_adi ++ ")")
          net (net * (1 + info.malzeme.varsayilan_fire_orani))
          info.malzeme.birim_olcu_tipi f.birim_fiyat)

/-- One room of the per-room loop: floor covering then wall covering. -/
def odaAdim (kat : Katalog) (a : Alanlar) (alan : String → Option (ℚ × ℚ))
    (oda : Oda) (st : Durum) : Option Durum :=
  duvarAdim kat a alan oda (zeminAdim kat alan oda st)

/-- The per-room loop of source lines 252–351. -/
def odaDongu (kat : Katalog) (a : Alanlar) (alan : String → Option (ℚ × ℚ)) :
    List Oda → Durum → Option Durum
  | [], st => some st
  | oda :: rest, st =>
    match odaAdim kat a alan oda st with
    | none => none
    | some st' => odaDongu kat a alan rest st'

/-- Label of the `i`-th window line. -/
def pencereEtiket (i : ℕ) (p : Pencere) : String :=
  "Pencere " ++ toString (i + 1) ++ " (" ++ toString p.genislik ++ "x" ++
    toString p.yukseklik ++ "m)"

/-- One window of the window loop (source lines 354–369). -/
def pencereAdim (kat : Katalog) (i : ℕ) (p : Pencere) (st : Durum) : Durum :=
  match kat.malzemeBilgisi "PVC Pencere" with
  | none => st
  | some info =>
    match info.fiyat with
    | none => st
    | some f =>
      satirEkle st (pencereEtiket i p) (p.adet : ℚ) (p.adet : ℚ) "adet"
        f.birim_fiyat

/-- The enumerated window loop. -/
def pencereDongu (kat : Katalog) : ℕ → List Pencere → Durum → Durum
  | _, [], st => st
  | i, p :: rest, st => pencereDongu kat (i + 1) rest (pencereAdim kat i p st)

/-- One character of Python `str.lower`, restricted to the ASCII and Turkish
uppercase letters that can occur in door names; every other character is left
unchanged.  `'İ'` lowers to `'i'` followed by U+0307, as in CPython. -/
def pyLowerChar (c : Char) : List Char :=
  if 'A' ≤ c ∧ c ≤ 'Z' then [Char.ofNat (c.toNat + 32)]
  else if c = 'Ç' then ['ç']
  else if c = 'Ğ' then ['ğ']
  else if c = 'İ' then ['i', Char.ofNat 775]
  else if c = 'Ö' then ['ö']
  else if c = 'Ş' then ['ş']
  else if c = 'Ü' then ['ü']
  else [c]

/-- Python `s.lower()` on a door name, as a character list. -/
def pyLower (s : String) : List Char :=
  (s.data.map pyLowerChar).flatten

/-- Does `hay` start with `n`? -/
def parcaBasta : List Char → List Char → Bool
  | [], _ => true
  | _ :: _, [] => false
  | a :: as, b :: bs => a == b && parcaBasta as bs

/-- Python substring test `n in hay`. -/
def altDizi (n : List Char) : List Char → Bool
  | [] => n.isEmpty
  | c :: rest => parcaBasta n (c :: rest) || altDizi n rest

/-- Door classification of source line 375: exterior category iff the
lowercased free-text name contains the substring `"ana giriş"`. -/
def kapiKategori (kapi_adi : String) : String :=
  if altDizi "ana giriş".data (pyLower kapi_adi) then "Dış Kapı" else "İç Kapı"

/-- Label of the `i`-th door line. -/
def kapiEtiket (i : ℕ) (k : Kapi) : String :=
  "Kapı " ++ toString (i + 1) ++ " (" ++ toString k.genislik ++ "x" ++
    toString k.yukseklik ++ "m)"

/-- One door of the door loop (source lines 374–391). -/
def kapiAdim (kat : Katalog) (i : ℕ) (k : Kapi) (st : Durum) : Durum :=
  match kat.malzemeBilgisi (kapiKategori k.kapi_adi) with
  | none => st
  | some info =>
    match info.fiyat with
    | none => st
    | some f =>
      satirEkle st (kapiEtiket i k) (k.adet : ℚ) (k.adet : ℚ) "adet"
        f.birim_fiyat

/-- The enumerated door loop. -/
def kapiDongu (kat : Katalog) : ℕ → List Kapi → Durum → Durum
  | _, [], st => st
  | i, k :: rest, st => kapiDongu kat (i + 1) rest (kapiAdim kat i k st)

/-- The label of the always-appended overhead line. -/
def tesisatEtiketi : String := "Tesisat ve Bağlantı Elemanları (Tahmini)"

/-- `EvHesaplayici.malzeme_ihtiyacini_hesapla` (source lines 206–408):
geometry, wall panels, roof, per-room coverings, windows, doors, then the 15 %
overhead line.  `none` models the run aborting with an uncaught exception. -/
def malzeme_ihtiyacini_hesapla (cosDeg : ℚ → ℚ) (kat : Katalog)
    (ev : EvBilgileri) : Option (List (String × Ihtiyac) × ℚ) :=
  let a := alan_hesapla cosDeg ev
  let alan := odaAlanlari ev.oda_listesi
  let st1 := duvarPaneliAdim kat a ⟨[], 0, none⟩
  let st2 := catiAdim kat a st1
  match odaDongu kat a alan ev.oda_listesi st2 with
  | none => none
  | some st3 =>
    let st4 := pencereDongu kat 0 ev.pencere_listesi st3
    let st5 := kapiDongu kat 0 ev.kapi_listesi st4
    let tesisat := st5.toplam * 0.15
    some (dictInsert st5.ihtiyaclar tesisatEtiketi
            ⟨Miktar.na, Miktar.na, "TL", 1, tesisat⟩,
          st5.toplam + tesisat)

/-! ### Supporting lemmas -/

theorem mem_dictInsert {m : List (String × Ihtiyac)} {k : String} {v : Ihtiyac}
    {p : String × Ihtiyac} (hp : p ∈ dictInsert m k v) : p = (k, v) ∨ p ∈ m := by
  unfold dictInsert at hp
  split at hp
  · rcases List.mem_map.1 hp with ⟨q, hq, hpq⟩
    by_cases hk : q.1 == k
    · left
      rw [← hpq, if_pos hk]
    · right
      rw [← hpq, if_neg hk]
      exact hq
  · rcases List.mem_append.1 hp with h | h
    · right; exact h
    · left; simpa using h

/-- Every line of the dict so far has `maliyet = gerekli_miktar * birim_fiyat`
with a numeric `gerekli_miktar`. -/
def Uygun (st : Durum) : Prop :=
  ∀ p ∈ st.ihtiyaclar, ∃ q, p.2.gerekli_miktar = Miktar.deger q ∧
    p.2.maliyet = q * p.2.birim_fiyat

theorem satirEkle_uygun {st : Durum} {key : String} {net gerekli : ℚ}
    {birim : String} {fiyat : ℚ} (h : Uygun st) :
    Uygun (satirEkle st key net gerekli birim fiyat) := by
  intro p hp
  rcases mem_dictInsert hp with hpe | hpm
  · subst hpe; exact ⟨gerekli, rfl, rfl⟩
  · exact h p hpm

theorem duvarPaneliAdim_uygun {kat : Katalog} {a : Alanlar} {st : Durum}
    (h : Uygun st) : Uygun (duvarPaneliAdim kat a st) := by
  simp only [duvarPaneliAdim]
  repeat' split
  all_goals first | exact satirEkle_uygun h | exact h

theorem catiAdim_uygun {kat : Katalog} {a : Alanlar} {st : Durum}
    (h : Uygun st) : Uygun (catiAdim kat a st) := by
  simp only [catiAdim]
  repeat' split
  all_goals first | exact satirEkle_uygun h | exact h

theorem zeminAdim_uygun {kat : Katalog} {alan : String → Option (ℚ × ℚ)}
    {oda : Oda} {st : Durum} (h : Uygun st) : Uygun (zeminAdim kat alan oda st) := by
  simp only [zeminAdim]
  repeat' split
  all_goals first | exact satirEkle_uygun h | exact h

theorem duvarAdim_uygun {kat : Katalog} {a : Alanlar}
    {alan : String → Option (ℚ × ℚ)} {oda : Oda} {st st' : Durum}
    (h : Uygun st) (he : duvarAdim kat a alan oda st = some st') : Uygun st' := by
  simp only [duvarAdim] at he
  repeat' split at he
  any_goals cases he
  all_goals first | exact h | exact satirEkle_uygun h

theorem odaAdim_uygun {kat : Katalog} {a : Alanlar}
    {alan : String → Option (ℚ × ℚ)} {oda : Oda} {st st' : Durum}
    (h : Uygun st) (he : odaAdim kat a alan oda st = some st') : Uygun st' :=
  duvarAdim_uygun (zeminAdim_uygun h) he

theorem odaDongu_uygun {kat : Katalog} {a : Alanlar}
    {alan : String → Option (ℚ × ℚ)} {l : List Oda} {st st' : Durum}
    (h : Uygun st) (he : odaDongu kat a alan l st = some st') : Uygun st' := by
  induction l generalizing st with
  | nil =>
    simp only [odaDongu] at he
    cases he; exact h
  | cons oda rest ih =>
    simp only [odaDongu] at he
    cases hx : odaAdim kat a alan oda st with
    | none => rw [hx] at he; cases he
    | some st1 =>
      rw [hx] at he
      exact ih (odaAdim_uygun h hx) he

theorem pencereAdim_uygun {kat : Katalog} {i : ℕ} {p : Pencere} {st : Durum}
    (h : Uygun st) : Uygun (pencereAdim kat i p st) := by
  simp only [pencereAdim]
  repeat' split
  all_goals first | exact satirEkle_uygun h | exact h

theorem pencereDongu_uygun {kat : Katalog} {l : List Pencere} {i : ℕ} {st : Durum}
    (h : Uygun st) : Uygun (pencereDongu kat i l st) := by
  induction l generalizing i st with
  | nil => exact h
  | cons p rest ih => exact ih (pencereAdim_uygun h)

theorem kapiAdim_uygun {kat : Katalog} {i : ℕ} {k : Kapi} {st : Durum}
    (h : Uygun st) : Uygun (kapiAdim kat i k st) := by
  simp only [kapiAdim]
  repeat' split
  all_goals first | exact satirEkle_uygun h | exact h

theorem kapiDongu_uygun {kat : Katalog} {l : List Kapi} {i : ℕ} {st : Durum}
    (h : Uygun st) : Uygun (kapiDongu kat i l st) := by
  induction l generalizing i st with
  | nil => exact h
  | cons k rest ih => exact ih (kapiAdim_uygun h)

theorem foldl_toplama (f : Oda → ℚ) (l : List Oda) (init : ℚ) :
    l.foldl (fun acc o => acc + f o) init = init + (l.map f).sum := by
  induction l generalizing init with
  | nil => simp
  | cons o rest ih => simp [ih, add_assoc]

/-- The room-area dict entry of a name, via the overwrite fold. -/
theorem odaAlanlari_foldl_aux (odalar : List Oda) (ad : String)
    (init : Option (ℚ × ℚ)) :
    odalar.foldl
        (fun acc o =>
          if o.oda_adi = ad then
            some (o.uzunluk * o.genislik, 2 * (o.uzunluk + o.genislik) * o.yukseklik)
          else acc)
        init =
      (odalar.reverse.find? (fun o => o.oda_adi == ad)).elim init
        (fun o => some (o.uzunluk * o.genislik,
          2 * (o.uzunluk + o.genislik) * o.yukseklik)) := by
  induction odalar generalizing init with
  | nil => simp
  | cons o rest ih =>
    simp only [List.foldl_cons, List.reverse_cons, List.find?_append, ih]
    rcases hf : rest.reverse.find? (fun o => o.oda_adi == ad) with _ | o'
    · by_cases ho : o.oda_adi = ad
      · simp [hf, List.find?, ho, Option.or]
      · simp [hf, List.find?, ho, Option.or, beq_eq_false_iff_ne.2 ho]
    · simp [hf, Option.or]

/-! ### Claim theorems -/

/-- Claim C5: for every geometry state and room-area dict produced by a
HouseSpec, the wall-panel net area equals
`max 0 (gross wall − windows − doors)` (hence is non-negative), and every
room's net wall area after the proportional opening deduction is clamped to
zero, i.e. equals the `max` with `0` of the deducted area and in particular is
non-negative. -/
theorem c5_negatif_olmayan_alanlar (a : Alanlar)
    (alan : String → Option (ℚ × ℚ)) (ad : String) :
    net_duvar_alani_paneller_icin a =
        max 0 (a.toplam_duvar_alani_brut - a.toplam_pencere_alani -
          a.toplam_kapi_alani) ∧
      0 ≤ net_duvar_alani_paneller_icin a ∧
      duvarAlaniNet a alan ad =
        max 0 (((alan ad).getD (0, 0)).2 -
          (if 0 < a.toplam_duvar_alani_brut then
            (((alan ad).getD (0, 0)).2 / a.toplam_duvar_alani_brut) *
              (a.toplam_pencere_alani + a.toplam_kapi_alani)
           else 0)) ∧
      0 ≤ duvarAlaniNet a alan ad := by
  have hmax : ∀ d : ℚ, (if d < 0 then (0 : ℚ) else d) = max 0 d := by
    intro d
    rcases lt_or_le d 0 with h | h
    · rw [if_pos h, max_eq_left h.le]
    · rw [if_neg (not_lt.2 h), max_eq_right h]
  have h1 := hmax (a.toplam_duvar_alani_brut - a.toplam_pencere_alani -
    a.toplam_kapi_alani)
  have h2 := hmax (((alan ad).getD (0, 0)).2 -
    (if 0 < a.toplam_duvar_alani_brut then
      (((alan ad).getD (0, 0)).2 / a.toplam_duvar_alani_brut) *
        (a.toplam_pencere_alani + a.toplam_kapi_alani)
     else 0))
  exact ⟨h1, le_of_le_of_eq (le_max_left 0 _) h1.symm, h2,
    le_of_le_of_eq (le_max_left 0 _) h2.symm⟩

/-- Claim C8, counterexample: a door named `"Main Entrance"` contains the
substring `"main entrance"` case-insensitively, yet the code classifies it
into the interior category, because line 375 only tests `"ana giriş"`. -/
theorem c8_karsi_ornek :
    kapiKategori "Main Entrance" = "İç Kapı" ∧
      altDizi "main entrance".data (pyLower "Main Entrance") = true := by
  exact ⟨by decide, by decide⟩

/-- Claim C8, amended: a door is classified into the exterior category iff
its name contains, case-insensitively, the substring `"ana giriş"` (the code
never tests `"main entrance"`); otherwise it gets the interior category. -/
theorem c8_kapi_siniflandirma (ad : String) :
    kapiKategori ad = "Dış Kapı" ↔
      altDizi "ana giriş".data (pyLower ad) = true := by
  unfold kapiKategori
  by_cases h : altDizi "ana giriş".data (pyLower ad)
  · simp [h]
  · simp only [h, if_neg]
    constructor
    · intro hcontra
      exact absurd hcontra (by decide)
    · intro hcontra
      exact absurd hcontra (by simp [h])

/-- Claim C9: the roof area equals the footprint-per-floor (total floor area
divided by the floor count, unadjusted when the floor count is ≤ 0) when the
roof type is `"Düz"` (Flat) or the pitch angle is ≤ 0; otherwise it is the
footprint divided by the cosine of the pitch, except that a cosine of
magnitude below 0.001 yields footprint × 2. -/
theorem c9_cati_alani (cosDeg : ℚ → ℚ) (ev : EvBilgileri) :
    (alan_hesapla cosDeg ev).cati_alani =
      if ev.cati_tipi = "Düz" ∨ ev.cati_egim_acisi ≤ 0 then
        (if 0 < ev.kat_sayisi then
          (alan_hesapla cosDeg ev).toplam_taban_alani / (ev.kat_sayisi : ℚ)
         else (alan_hesapla cosDeg ev).toplam_taban_alani)
      else if |cosDeg ev.cati_egim_acisi| < 0.001 then
        (if 0 < ev.kat_sayisi then
          (alan_hesapla cosDeg ev).toplam_taban_alani / (ev.kat_sayisi : ℚ)
         else (alan_hesapla cosDeg ev).toplam_taban_alani) * 2
      else
        (if 0 < ev.kat_sayisi then
          (alan_hesapla cosDeg ev).toplam_taban_alani / (ev.kat_sayisi : ℚ)
         else (alan_hesapla cosDeg ev).toplam_taban_alani) /
          cosDeg ev.cati_egim_acisi := by
  by_cases h1 : ev.cati_tipi = "Düz" <;> by_cases h2 : ev.cati_egim_acisi ≤ 0 <;>
    simp [alan_hesapla, h1, h2, not_lt.2, lt_of_not_le]

/-- Claim C10: the geometry totals sum the areas of every room of the input
list, duplicated names included, while the per-room area dict keeps, for any
name, exactly the areas of the last room of the list with that name (so the
per-room covering lines, which read this dict inside
`malzeme_ihtiyacini_hesapla`, use the last such room's areas). -/
theorem c10_oda_adi_tekrari (cosDeg : ℚ → ℚ) (ev : EvBilgileri) (ad : String) :
    (alan_hesapla cosDeg ev).toplam_taban_alani =
        (ev.oda_listesi.map (fun o => o.uzunluk * o.genislik)).sum ∧
      (alan_hesapla cosDeg ev).toplam_duvar_alani_brut =
        (ev.oda_listesi.map
          (fun o => 2 * (o.uzunluk + o.genislik) * o.yukseklik)).sum ∧
      odaAlanlari ev.oda_listesi ad =
        (ev.oda_listesi.reverse.find? (fun o => o.oda_adi == ad)).map
          (fun o => (o.uzunluk * o.genislik,
            2 * (o.uzunluk + o.genislik) * o.yukseklik)) := by
  refine ⟨?_, ?_, ?_⟩
  · simp [alan_hesapla, foldl_toplama]
  · simp [alan_hesapla, foldl_toplama]
  · rw [odaAlanlari, odaAlanlari_foldl_aux]
    cases ev.oda_listesi.reverse.find? (fun o => o.oda_adi == ad) <;> simp

/-- Claim C7: when the room's floor-covering lookup and price succeed, the
floor line is the tile count `(net / tile_unit_area) * (1 + waste)` in unit
`"adet"` whenever the material is `"Fayans"` and the `(room, "Zemin")`
application detail carries a positive `fayans_boyut_m2`; otherwise it is
`net * (1 + waste)` in the material's native unit. -/
theorem c7_fayans_miktari (kat : Katalog) (alan : String → Option (ℚ × ℚ))
    (oda : Oda) (st : Durum) (info : MalzemeInfo) (f : Fiyat)
    (h1 : kat.malzemeBilgisi oda.zemin_kaplama_tipi = some info)
    (h2 : info.fiyat = some f) :
    (∀ v : ℚ,
        bagGet (etkinBag (kat.uygulamaDetaylari oda.oda_adi "Zemin"))
            "fayans_boyut_m2" = some v →
        info.malzeme.malzeme_adi = "Fayans" → 0 < v →
        zeminAdim kat alan oda st =
          satirEkle st
            (oda.oda_adi ++ " Zemin (" ++ info.malzeme.malzeme_adi ++ ")")
            (((alan oda.oda_adi).getD (0, 0)).1)
            ((((alan oda.oda_adi).getD (0, 0)).1 / v) *
              (1 + info.malzeme.varsayilan_fire_orani))
            "adet" f.birim_fiyat) ∧
      (¬ (info.malzeme.malzeme_adi = "Fayans" ∧
            ∃ v, bagGet (etkinBag (kat.uygulamaDetaylari oda.oda_adi "Zemin"))
                "fayans_boyut_m2" = some v ∧ 0 < v) →
        zeminAdim kat alan oda st =
          satirEkle st
            (oda.oda_adi ++ " Zemin (" ++ info.malzeme.malzeme_adi ++ ")")
            (((alan oda.oda_adi).getD (0, 0)).1)
            ((((alan oda.oda_adi).getD (0, 0)).1) *
              (1 + info.malzeme.varsayilan_fire_orani))
            info.malzeme.birim_olcu_tipi f.birim_fiyat) := by
  constructor
  · intro v hv hF hpos
    simp only [zeminAdim, h1, h2, hv]
    rw [if_pos ⟨hF, hpos⟩]
  · intro hneg
    simp only [zeminAdim, h1, h2]
    cases hv : bagGet (etkinBag (kat.uygulamaDetaylari oda.oda_adi "Zemin"))
        "fayans_boyut_m2" with
    | none => rfl
    | some v =>
      dsimp only
      rw [if_neg]
      intro hcond
      exact hneg ⟨hcond.1, v, hv, hcond.2⟩

/-- Tile-size positivity used by the C7 witness. -/
theorem fayans_boyut_pos : (0 : ℚ) < 9 / 100 := by norm_num

def info7 : MalzemeInfo := ⟨⟨"Fayans", "m2", 1 / 10⟩, some ⟨50⟩, []⟩

def kat7 : Katalog :=
  ⟨fun ad => if ad = "Fayans" then some info7 else none,
   fun ad yer =>
     if ad = "Banyo" ∧ yer = "Zemin" then
       [EkOzellik.veri [("fayans_boyut_m2", 9 / 100)]]
     else []⟩

def oda7 : Oda := ⟨"Banyo", 3, 3, 2, "Fayans", "Boya"⟩

def alan7 : String → Option (ℚ × ℚ) :=
  fun ad => if ad = "Banyo" then some (9, 24) else none

/-- Witness for C7: the spec's own numbers — tile size 0.09 m², net floor
area 9 m², waste 0.10 — produce the tile-count floor line. -/
theorem c7_fayans_miktari_tanik :
    zeminAdim kat7 alan7 oda7 ⟨[], 0, none⟩ =
        satirEkle ⟨[], 0, none⟩
          ("Banyo" ++ " Zemin (" ++ "Fayans" ++ ")") 9
          ((9 / (9 / 100)) * (1 + 1 / 10)) "adet" 50 ∧
      ((9 : ℚ) / (9 / 100)) * (1 + 1 / 10) = 110 := by
  refine ⟨?_, by norm_num⟩
  exact (c7_fayans_miktari kat7 alan7 oda7 ⟨[], 0, none⟩ info7 ⟨50⟩ rfl rfl).1
    (9 / 100) rfl rfl fayans_boyut_pos

/-- Claim C6, amended: for a paint wall line (material `"Boya"`, a `"Duvar"`
consumption rate present), the required quantity is
`net × rate × coats × (1 + waste)` where `coats` is the `kat_sayisi` property
read with `.get("kat_sayisi", 1)` — i.e. it defaults to 1 only when the
property is absent and a present non-positive value is used as-is — and the
line's unit is the literal string `"litre"`, not the rate's unit. -/
theorem c6_boya_miktari (kat : Katalog) (a : Alanlar)
    (alan : String → Option (ℚ × ℚ)) (oda : Oda) (st : Durum)
    (info : MalzemeInfo) (f : Fiyat) (s0 : Sarfiyat)
    (h1 : kat.malzemeBilgisi oda.duvar_kaplama_tipi = some info)
    (h2 : info.fiyat = some f)
    (h3 : info.malzeme.malzeme_adi = "Boya")
    (h4 : (info.sarfiyat.filter
      (fun s => s.uygulama_turu == "Duvar")).head? = some s0) :
    duvarAdim kat a alan oda st =
      some { ihtiyaclar := dictInsert st.ihtiyaclar
               (oda.oda_adi ++ " Duvar (" ++ info.malzeme.malzeme_adi ++ ")")
               ⟨Miktar.deger (duvarAlaniNet a alan oda.oda_adi),
                Miktar.deger (duvarAlaniNet a alan oda.oda_adi *
                  s0.sarfiyat_degeri *
                  ((bagGet (etkinBag (kat.uygulamaDetaylari oda.oda_adi "Duvar"))
                     "kat_sayisi").getD 1) *
                  (1 + info.malzeme.varsayilan_fire_orani)),
                "litre", f.birim_fiyat,
                duvarAlaniNet a alan oda.oda_adi * s0.sarfiyat_degeri *
                  ((bagGet (etkinBag (kat.uygulamaDetaylari oda.oda_adi "Duvar"))
                     "kat_sayisi").getD 1) *
                  (1 + info.malzeme.varsayilan_fire_orani) * f.birim_fiyat⟩,
             toplam := st.toplam +
               duvarAlaniNet a alan oda.oda_adi * s0.sarfiyat_degeri *
                 ((bagGet (etkinBag (kat.uygulamaDetaylari oda.oda_adi "Duvar"))
                    "kat_sayisi").getD 1) *
                 (1 + info.malzeme.varsayilan_fire_orani) * f.birim_fiyat +
               duvarAlaniNet a alan oda.oda_adi * s0.sarfiyat_degeri *
                 ((bagGet (etkinBag (kat.uygulamaDetaylari oda.oda_adi "Duvar"))
                    "kat_sayisi").getD 1) *
                 (1 + info.malzeme.varsayilan_fire_orani) * f.birim_fiyat,
             sonMaliyet := some
               (duvarAlaniNet a alan oda.oda_adi * s0.sarfiyat_degeri *
                 ((bagGet (etkinBag (kat.uygulamaDetaylari oda.oda_adi "Duvar"))
                    "kat_sayisi").getD 1) *
                 (1 + info.malzeme.varsayilan_fire_orani) * f.birim_fiyat) } := by
  simp only [duvarAdim, h1, h2, h4]
  rw [if_pos h3]
  rfl

def sarfiyat6 : Sarfiyat := ⟨"Duvar", 3 / 20, "galon/m2"⟩

def info6 : MalzemeInfo := ⟨⟨"Boya", "litre", 1 / 20⟩, some ⟨50⟩, [sarfiyat6]⟩

def kat6 : Katalog :=
  ⟨fun ad => if ad = "Boya" then some info6 else none,
   fun ad yer =>
     if ad = "Salon" ∧ yer = "Duvar" then
       [EkOzellik.veri [("kat_sayisi", 0)]]
     else []⟩

def oda6 : Oda := ⟨"Salon", 2, 3, 2, "Yok", "Boya"⟩

def a6 : Alanlar := ⟨0, 0, 6, 20, 6⟩

def alan6 : String → Option (ℚ × ℚ) :=
  fun ad => if ad = "Salon" then some (6, 20) else none

/-- Claim C6, counterexample: a present coat-count property equal to 0 is
used as-is, so the paint line's required quantity is 0 instead of the
claimed `net × rate × 1 × (1 + waste) = 20 × 0.15 × 1 × 1.05 = 3.15`; the
line's unit is also the literal `"litre"` although the rate's unit string is
`"galon/m2"`. -/
theorem c6_karsi_ornek :
    duvarAdim kat6 a6 alan6 oda6 ⟨[], 0, none⟩ =
        some ⟨[("Salon Duvar (Boya)",
          ⟨Miktar.deger 20, Miktar.deger 0, "litre", 50, 0⟩)], 0, some 0⟩ ∧
      Miktar.deger (0 : ℚ) ≠ Miktar.deger (20 * (3 / 20) * 1 * (1 + 1 / 20)) ∧
      sarfiyat6.sarfiyat_birimi = "galon/m2" := by
  refine ⟨by with_unfolding_all rfl, ?_, rfl⟩
  intro h
  rw [Miktar.deger.injEq] at h
  norm_num at h

def info6t : MalzemeInfo :=
  ⟨⟨"Boya", "litre", 1 / 20⟩, some ⟨50⟩, [⟨"Duvar", 3 / 20, "litre/m2"⟩]⟩

def kat6t : Katalog :=
  ⟨fun ad => if ad = "Boya" then some info6t else none,
   fun ad yer =>
     if ad = "Salon" ∧ yer = "Duvar" then
       [EkOzellik.veri [("kat_sayisi", 2)]]
     else []⟩

/-- Witness for the amended C6: the spec's own numbers — rate 0.15, coats 2,
net wall area 20, waste 0.05 — via a direct application of
`c6_boya_miktari`. -/
theorem c6_boya_miktari_tanik :
    duvarAdim kat6t a6 alan6 oda6 ⟨[], 0, none⟩ =
      some { ihtiyaclar := dictInsert []
               ("Salon" ++ " Duvar (" ++ "Boya" ++ ")")
               ⟨Miktar.deger (duvarAlaniNet a6 alan6 "Salon"),
                Miktar.deger (duvarAlaniNet a6 alan6 "Salon" * (3 / 20) *
                  ((bagGet (etkinBag (kat6t.uygulamaDetaylari "Salon" "Duvar"))
                     "kat_sayisi").getD 1) * (1 + 1 / 20)),
                "litre", 50,
                duvarAlaniNet a6 alan6 "Salon" * (3 / 20) *
                  ((bagGet (etkinBag (kat6t.uygulamaDetaylari "Salon" "Duvar"))
                     "kat_sayisi").getD 1) * (1 + 1 / 20) * 50⟩,
             toplam := 0 +
               duvarAlaniNet a6 alan6 "Salon" * (3 / 20) *
                 ((bagGet (etkinBag (kat6t.uygulamaDetaylari "Salon" "Duvar"))
                    "kat_sayisi").getD 1) * (1 + 1 / 20) * 50 +
               duvarAlaniNet a6 alan6 "Salon" * (3 / 20) *
                 ((bagGet (etkinBag (kat6t.uygulamaDetaylari "Salon" "Duvar"))
                    "kat_sayisi").getD 1) * (1 + 1 / 20) * 50,
             sonMaliyet := some
               (duvarAlaniNet a6 alan6 "Salon" * (3 / 20) *
                 ((bagGet (etkinBag (kat6t.uygulamaDetaylari "Salon" "Duvar"))
                    "kat_sayisi").getD 1) * (1 + 1 / 20) * 50) } :=
  c6_boya_miktari kat6t a6 alan6 oda6 ⟨[], 0, none⟩ info6t ⟨50⟩
    ⟨"Duvar", 3 / 20, "litre/m2"⟩ rfl rfl rfl rfl

/-- Claim C4, amended: every line of the output dict other than the overhead
line satisfies `maliyet = gerekli_miktar × birim_fiyat` exactly (hence within
any tolerance); the overhead line itself carries the non-numeric `"N/A"`
markers, so the identity cannot apply to it. -/
theorem c4_maliyet_carpimi (cosDeg : ℚ → ℚ) (kat : Katalog) (ev : EvBilgileri)
    (m : List (String × Ihtiyac)) (t : ℚ)
    (hres : malzeme_ihtiyacini_hesapla cosDeg kat ev = some (m, t))
    (k : String) (satir : Ihtiyac) (hmem : (k, satir) ∈ m)
    (hk : k ≠ tesisatEtiketi) :
    ∃ q, satir.gerekli_miktar = Miktar.deger q ∧
      satir.maliyet = q * satir.birim_fiyat := by
  simp only [malzeme_ihtiyacini_hesapla] at hres
  cases hod : odaDongu kat (alan_hesapla cosDeg ev) (odaAlanlari ev.oda_listesi)
      ev.oda_listesi
      (catiAdim kat (alan_hesapla cosDeg ev)
        (duvarPaneliAdim kat (alan_hesapla cosDeg ev) ⟨[], 0, none⟩)) with
  | none => rw [hod] at hres; cases hres
  | some st3 =>
    rw [hod] at hres
    have hbos : Uygun (⟨[], 0, none⟩ : Durum) := by
      intro p hp
      exact absurd hp (List.not_mem_nil p)
    have hU : Uygun (kapiDongu kat 0 ev.kapi_listesi
        (pencereDongu kat 0 ev.pencere_listesi st3)) :=
      kapiDongu_uygun (pencereDongu_uygun
        (odaDongu_uygun (catiAdim_uygun (duvarPaneliAdim_uygun hbos)) hod))
    injection hres with hpair
    injection hpair with hm ht
    subst hm
    rcases mem_dictInsert hmem with he | hmm
    · exact absurd (congrArg Prod.fst he) hk
    · exact hU (k, satir) hmm

def cos0 : ℚ → ℚ := fun _ => 0

def evBos : EvBilgileri := ⟨1, "Düz", 0, [], [], []⟩

def satirTesisat0 : Ihtiyac := ⟨Miktar.na, Miktar.na, "TL", 1, 0⟩

def infoPanel : MalzemeInfo := ⟨⟨"Duvar Paneli", "m2", 1 / 20⟩, some ⟨120⟩, []⟩

def kat4 : Katalog :=
  ⟨fun ad => if ad = "Duvar Paneli" then some infoPanel else none, fun _ _ => []⟩

def satir4 : Ihtiyac := ⟨Miktar.deger 0, Miktar.deger 0, "m2", 120, 0⟩

def ihtiyac4 : List (String × Ihtiyac) :=
  [("Duvar Paneli (Toplam)", satir4), (tesisatEtiketi, satirTesisat0)]

/-- Claim C4, counterexample: the overhead line of a concrete run has the
`"N/A"` required-quantity marker, so `cost = required_quantity × unit_price`
fails for it even though its cost is 0 and its unit price is 1. -/
theorem c4_karsi_ornek :
    malzeme_ihtiyacini_hesapla cos0 kat4 evBos = some (ihtiyac4, 0) ∧
      (tesisatEtiketi, satirTesisat0) ∈ ihtiyac4 ∧
      ¬ ∃ q : ℚ, satirTesisat0.gerekli_miktar = Miktar.deger q ∧
          satirTesisat0.maliyet = q * satirTesisat0.birim_fiyat := by
  refine ⟨by with_unfolding_all rfl, by simp [ihtiyac4], ?_⟩
  rintro ⟨q, hq, -⟩
  exact absurd hq (by simp [satirTesisat0])

/-- Witness for the amended C4: the wall-panel line of the `kat4`/`evBos` run
satisfies the cost identity. -/
theorem c4_maliyet_carpimi_tanik :
    ∃ q, satir4.gerekli_miktar = Miktar.deger q ∧
      satir4.maliyet = q * satir4.birim_fiyat :=
  c4_maliyet_carpimi cos0 kat4 evBos ihtiyac4 0
    (by with_unfolding_all rfl) "Duvar Paneli (Toplam)" satir4
    (List.mem_cons_self _ _) (by decide)

def infoBoya1 : MalzemeInfo :=
  ⟨⟨"Boya", "litre", 0⟩, some ⟨10⟩, [⟨"Duvar", 1, "litre/m2"⟩]⟩

def katB1 : Katalog :=
  ⟨fun ad => if ad = "Boya" then some infoBoya1 else none, fun _ _ => []⟩

def evB1 : EvBilgileri :=
  ⟨1, "Düz", 0, [⟨"Salon", 2, 2, 2, "Yok", "Boya"⟩], [], []⟩

def ihtiyacB1 : List (String × Ihtiyac) :=
  [("Salon Duvar (Boya)", ⟨Miktar.deger 16, Miktar.deger 16, "litre", 10, 160⟩),
   (tesisatEtiketi, ⟨Miktar.na, Miktar.na, "TL", 1, 48⟩)]

/-- Claim C1, failing run: a single paint wall line of cost 160 yields a
grand total of 368, but the costs of the output lines (160 and the overhead
48) sum to 208 — line 349 of the source adds the paint cost to the running
total a second time, so the total does not equal the sum of the lines with
each cost counted once. -/
theorem c1_toplam_cift_sayim :
    malzeme_ihtiyacini_hesapla cos0 katB1 evB1 = some (ihtiyacB1, 368) ∧
      (ihtiyacB1.map (fun p => p.2.maliyet)).sum = 208 ∧
      (368 : ℚ) ≠ 208 := by
  refine ⟨by with_unfolding_all rfl, by with_unfolding_all rfl, by norm_num⟩

def infoBoya2 : MalzemeInfo :=
  ⟨⟨"Boya", "litre", 0⟩, some ⟨20⟩, [⟨"Duvar", 1 / 4, "litre/m2"⟩]⟩

def katB2 : Katalog :=
  ⟨fun ad => if ad = "Boya" then some infoBoya2 else none, fun _ _ => []⟩

def evB2 : EvBilgileri :=
  ⟨1, "Düz", 0, [⟨"Oda", 3, 1, 1, "Yok", "Boya"⟩], [], []⟩

/-- Claim C2, failing run: the single overhead line is present, appended
last, with `"N/A"` markers and unit price 1, but its cost is 12 =
0.15 × (double-counted running total 80), not 0.15 × 40, the sum of the
costs of all other lines. -/
theorem c2_tesisat_cift_sayim :
    malzeme_ihtiyacini_hesapla cos0 katB2 evB2 =
        some ([("Oda Duvar (Boya)",
                 ⟨Miktar.deger 8, Miktar.deger 2, "litre", 20, 40⟩),
               (tesisatEtiketi, ⟨Miktar.na, Miktar.na, "TL", 1, 12⟩)], 92) ∧
      (12 : ℚ) ≠ 0.15 * 40 := by
  refine ⟨by with_unfolding_all rfl, by norm_num⟩

def infoBoya3 : MalzemeInfo := ⟨⟨"Boya", "litre", 0⟩, some ⟨5⟩, []⟩

def katB3 : Katalog :=
  ⟨fun ad => if ad = "Boya" then some infoBoya3 else none, fun _ _ => []⟩

def evB3 : EvBilgileri :=
  ⟨1, "Düz", 0, [⟨"Salon", 2, 2, 2, "Yok", "Boya"⟩], [], []⟩

def katBos : Katalog := ⟨fun _ => none, fun _ _ => []⟩

/-- Claim C3, failing run plus the empty-house case: when the room's wall
covering is the paint material with a price but no `"Duvar"` consumption rate
and no earlier line assigned the local `maliyet`, line 349 of the source
reads an unbound local and the whole run aborts (modelled by `none`) — no
warning is recorded anywhere, since every warning call in
`malzeme_ihtiyacini_hesapla` is commented out; the empty house against an
empty catalog does return only the overhead line with cost 0. -/
theorem c3_istisna_ve_uyarilar :
    malzeme_ihtiyacini_hesapla cos0 katB3 evB3 = none ∧
      malzeme_ihtiyacini_hesapla cos0 katBos evBos =
        some ([(tesisatEtiketi, ⟨Miktar.na, Miktar.na, "TL", 1, 0⟩)], 0) := by
  refine ⟨by with_unfolding_all rfl, by with_unfolding_all rfl⟩

end Prefabric
